import Mathlib

/-!
Verification development for the grid maintenance and reconciliation engine
(`utils/utils.py`, `utils/order_manager.py`, `utils/trailingStopLoss.py`,
`utils/helpers.py` and the files around them).

The Python code works on IEEE floats; here real arithmetic is embedded
exactly over `ℚ`.  `round(x, d)` is Python's round-half-to-even at `d`
decimal places, modelled by `pythonRound` / `roundTo`.  Broker objects
(pending orders, positions, ticks, symbol info) become plain structures,
and broker calls (`mt5.order_send`, ...) become explicit function
parameters, so every embedded operation is a pure, executable function.
-/

namespace GridAlgo

/-- Python's built-in `round` on a number with no decimal argument:
round half to even, returning an integer. -/
def pythonRound (q : ℚ) : ℤ :=
  if q - ⌊q⌋ < 1/2 then ⌊q⌋
  else if 1/2 < q - ⌊q⌋ then ⌊q⌋ + 1
  else if Even ⌊q⌋ then ⌊q⌋ else ⌊q⌋ + 1

/-- Python's `round(q, d)`: round half to even at `d` decimal places. -/
def roundTo (d : ℕ) (q : ℚ) : ℚ :=
  (pythonRound (q * 10 ^ d) : ℚ) / 10 ^ d

/-- Grid rounding policy of the price aligner
(mode strings "nearest" / "up" / "down" in the source; any other string
falls back to "nearest", so three modes cover all behaviours). -/
inductive RoundMode where
  | nearest
  | up
  | down
deriving DecidableEq, Repr

/-- The epsilon bias `1e-12` used by the "up"/"down" modes of the aligner. -/
def gridEps : ℚ := 1 / 10 ^ 12

/-- The integer grid index the aligner derives from `ratio = price / brick`:
`int(round(ratio))` for "nearest", `math.floor(ratio + 1e-12)` for "down",
`math.ceil(ratio - 1e-12)` for "up" (utils/utils.py lines 110-117). -/
def alignIndex (mode : RoundMode) (ratio : ℚ) : ℤ :=
  match mode with
  | RoundMode.nearest => pythonRound ratio
  | RoundMode.down => ⌊ratio + gridEps⌋
  | RoundMode.up => ⌈ratio - gridEps⌉

/-- Price Aligner, `align_price_to_grid_symbol` (utils/utils.py lines 96-120).
The `symbol` argument of the Python function is unused in the computation and
is dropped.  Degenerate `brick_size ≤ 0` returns `round(price, 8)`; otherwise
`ratio = price / brick_size` is turned into an integer `n` by the mode and the
result is `round(n * brick_size, 8)`. -/
def align_price_to_grid_symbol (price brick : ℚ) (mode : RoundMode) : ℚ :=
  if brick ≤ 0 then roundTo 8 price
  else roundTo 8 ((alignIndex mode (price / brick) : ℚ) * brick)

/-! MT5 constants, as exposed by the MetaTrader5 package. -/

def ORDER_TYPE_BUY : ℕ := 0
def ORDER_TYPE_SELL : ℕ := 1
def ORDER_TYPE_BUY_STOP : ℕ := 4
def ORDER_TYPE_SELL_STOP : ℕ := 5
def TRADE_RETCODE_DONE : ℕ := 10009
def MAX_ORDERS_PER_SYMBOL : ℕ := 60

/-- The order fill-policy constants `ORDER_FILLING_FOK` / `ORDER_FILLING_IOC` /
`ORDER_FILLING_RETURN`. -/
inductive FillMode where
  | fok
  | ioc
  | ret
deriving DecidableEq, Repr

/-- A broker-reported pending order (`PendingOrderView`): ticket, order type
and raw open price (the code guards against a missing `price_open`). -/
structure PendingOrder where
  ticket : ℕ
  otype : ℕ
  price_open : Option ℚ
deriving DecidableEq, Repr

/-- The fields of the order request built by `place_order`
(order_manager.py lines 55-67) that the broker reacts to. -/
structure OrderRequest where
  otype : ℕ
  price : ℚ
  volume : ℚ
  sl : Option ℚ
  tp : Option ℚ
  type_filling : FillMode
deriving DecidableEq, Repr

/-- The broker's reply to `mt5.order_send` (only the return code matters to
the engine); a `none` reply models `result` being falsy. -/
structure OrderSendResult where
  retcode : ℕ
deriving DecidableEq, Repr

/-- `order_exists` (order_manager.py lines 9-20): a pending order of the same
type sits at the same price after rounding both to the symbol precision. -/
def order_exists (digits : ℕ) (pending : List PendingOrder) (price : ℚ)
    (otype : ℕ) : Bool :=
  let p := roundTo digits price
  pending.any fun o =>
    decide (o.otype = otype) &&
      match o.price_open with
      | some po => decide (roundTo digits po = p)
      | none => false

/-- `can_place_order` (order_manager.py lines 22-33): enforces the per-symbol
pending-order ceiling of 60. -/
def can_place_order (pending : List PendingOrder) : Bool :=
  decide (pending.length < MAX_ORDERS_PER_SYMBOL)

/-- `place_order` (order_manager.py lines 36-80).  `send` is the broker's
`mt5.order_send`.  After the ceiling and duplicate guards it converts the
sl/tp distances into absolute prices (a zero distance is falsy in Python and
is dropped, lines 66-67), sends one single request whose fill mode is the
constant `ORDER_FILLING_RETURN` (line 64), and returns the result only when
its retcode is `TRADE_RETCODE_DONE`, otherwise `None`. -/
def place_order (digits : ℕ) (pending : List PendingOrder)
    (send : OrderRequest → Option OrderSendResult)
    (otype : ℕ) (price lot : ℚ) (slPips tpPips : Option ℚ) :
    Option OrderSendResult :=
  if ¬ can_place_order pending then none
  else
    let price := roundTo digits price
    if order_exists digits pending price otype then none
    else
      let sl := slPips.map fun s =>
        if otype = ORDER_TYPE_BUY_STOP then roundTo digits (price - s)
        else roundTo digits (price + s)
      let tp := tpPips.map fun t =>
        if otype = ORDER_TYPE_BUY_STOP then roundTo digits (price + t)
        else roundTo digits (price - t)
      let slReq := match sl with
        | some v => if v = 0 then none else some v
        | none => none
      let tpReq := match tp with
        | some v => if v = 0 then none else some v
        | none => none
      match send { otype := otype, price := price, volume := lot,
                   sl := slReq, tp := tpReq, type_filling := FillMode.ret } with
      | none => none
      | some r => if r.retcode = TRADE_RETCODE_DONE then some r else none

/-- Modelled from the spec: the placement behaviour §4.2 describes — "Sends
using a fixed, ordered list of execution/fill modes, retrying with the next
mode on any non-success return code until one succeeds or all are exhausted;
the final attempt's result is returned."  The source has such a loop only in
the close/cancel helpers (`send_order_fast`, ordered RETURN, FOK, IOC), never
on the stop-order placement path. -/
def spec_send_with_fill_fallback (send : OrderRequest → Option OrderSendResult)
    (req : OrderRequest) : Option OrderSendResult :=
  let r1 := send { req with type_filling := FillMode.ret }
  match r1 with
  | some v =>
    if v.retcode = TRADE_RETCODE_DONE then r1
    else
      let r2 := send { req with type_filling := FillMode.fok }
      match r2 with
      | some w =>
        if w.retcode = TRADE_RETCODE_DONE then r2
        else send { req with type_filling := FillMode.ioc }
      | none => send { req with type_filling := FillMode.ioc }
  | none =>
    let r2 := send { req with type_filling := FillMode.fok }
    match r2 with
    | some w =>
      if w.retcode = TRADE_RETCODE_DONE then r2
      else send { req with type_filling := FillMode.ioc }
    | none => send { req with type_filling := FillMode.ioc }

/-! Trailing-Stop Adjuster (utils/trailingStopLoss.py). -/

/-- The local `round_price` of trailingStopLoss.py (lines 48-54):
`round(price / rounding) * rounding`, identity when the rounding unit is
zero (or `None`). -/
def tsl_round_price (price rounding : ℚ) : ℚ :=
  if rounding = 0 then price
  else (pythonRound (price / rounding) : ℚ) * rounding

/-- A position's direction (`pos.type`: 0 = buy, 1 = sell). -/
inductive PosSide where
  | buy
  | sell
deriving DecidableEq, Repr

/-- The new stop-loss candidate computed by `update_trailing_stop`
(trailingStopLoss.py lines 107-120) for one open position: reference price is
the bid for a buy and the ask for a sell; the stop is advanced when no stop is
set (`sl == 0`) or the gap between reference price and the existing stop
exceeds the trailing distance, to `round_price(reference ∓ trailing, brick)`.
Returns `none` when the advance condition fails. -/
def update_trailing_new_sl (side : PosSide) (bid ask sl trailing brick : ℚ) :
    Option ℚ :=
  match side with
  | PosSide.buy =>
    if sl = 0 ∨ bid - sl > trailing then
      some (tsl_round_price (bid - trailing) brick)
    else none
  | PosSide.sell =>
    if sl = 0 ∨ sl - ask > trailing then
      some (tsl_round_price (ask + trailing) brick)
    else none

/-- The position's stop-loss after one `update_trailing_stop` pass over it
(lines 122-138): a modify request is sent exactly when the candidate differs
from the current stop; a candidate equal to the current stop is a no-op, so
either way the resulting stop is the candidate when one was computed. -/
def update_trailing_stop_result (side : PosSide) (bid ask sl trailing brick : ℚ) :
    ℚ :=
  (update_trailing_new_sl side bid ask sl trailing brick).getD sl

/-! Closed-level cool-down ledger (C4) and far-order pruning (C6). -/

/-- The cool-down purge at the top of each `run_symbol_loop` iteration
(utils/utils.py lines 534-538): every key whose timestamp satisfies
`now - t > block_seconds` is deleted; the rest of the ledger survives. -/
def purge_closed_levels (now blockSeconds : ℚ) (levels : List (ℚ × ℚ)) :
    List (ℚ × ℚ) :=
  levels.filter fun e => decide (now - e.2 ≤ blockSeconds)

/-- `cancel_far_orders_preserve` (order_manager.py lines 128-155), returned
as the sublist of pending orders on which a cancellation (`remove_order`) is
issued.  Bounds use the hard-coded multiplier 3; an order whose
precision-rounded price is in `preserve_prices` is skipped before the
distance checks; orders with no `price_open` are skipped. -/
def cancel_far_orders_preserve (digits : ℕ) (orders : List PendingOrder)
    (current brick maxUp maxDown : ℚ) (preserve : List ℚ) :
    List PendingOrder :=
  let upper := current + brick * (maxUp * 3)
  let lower := current - brick * (maxDown * 3)
  orders.filter fun o =>
    match o.price_open with
    | none => false
    | some p =>
      if roundTo digits p ∈ preserve then false
      else if o.otype = ORDER_TYPE_BUY_STOP ∧ p > upper then true
      else if o.otype = ORDER_TYPE_SELL_STOP ∧ p < lower then true
      else false

/-! Per-tick control flow of the symbol worker (C7). -/

/-- The engine components a `run_symbol_loop` iteration can invoke. -/
inductive TickStep where
  | purgeCooldown
  | tickFetch
  | toleranceCheck
  | pendingSync
  | initialGrid
  | gridMaintainer
  | mirrorHandler
  | farOrderPruner
deriving DecidableEq, Repr

/-- The sequence of component invocations in one full iteration of
`run_symbol_loop` (utils/utils.py lines 531-614): cool-down purge (534-538),
tick fetch (541), tolerance check (551), pending-price sync (568-571),
initial-grid placement (577-589), `update_grid` — the Grid Maintainer —
(592-603), and `handle_new_positions_and_create_mirrors` — the Mirror
Handler — (606-610).  `cancel_far_orders` / `cancel_far_orders_preserve`
(the Far-Order Pruner) are imported at lines 16-19 but never called. -/
def run_symbol_loop_tick_trace : List TickStep :=
  [TickStep.purgeCooldown, TickStep.tickFetch, TickStep.toleranceCheck,
   TickStep.pendingSync, TickStep.initialGrid, TickStep.gridMaintainer,
   TickStep.mirrorHandler]

/-! Position tickets and the Mirror Handler's closed-ticket sweep (C3). -/

/-- A position's identity as built at utils/utils.py line 437:
the broker's integer ticket when present and truthy, otherwise the synthetic
fallback string `f"{price_open}_{volume}"`.  The synthetic constructor keeps
the two numbers; parsing `float(t.split("_")[0])` at line 498 recovers the
first one (Python float repr round-trips). -/
inductive TicketId where
  | real (n : ℕ)
  | synth (price volume : ℚ)
deriving DecidableEq, Repr

/-- A broker-reported open position (`PositionView`).  MT5 position objects
always carry an open price, so `price_open` is total here. -/
structure Position where
  ticket : TicketId
  ptype : ℕ
  price_open : ℚ
  volume : ℚ
deriving DecidableEq, Repr

/-- Dictionary write `closed_levels[p] = now` on a list-of-pairs ledger. -/
def upsert_closed_level (p now : ℚ) (levels : List (ℚ × ℚ)) : List (ℚ × ℚ) :=
  if p ∈ levels.map Prod.fst then
    levels.map fun e => if e.1 = p then (p, now) else e
  else (p, now) :: levels

/-- The closed-ticket sweep at the end of
`handle_new_positions_and_create_mirrors` (utils/utils.py lines 493-506).
For every ticket in `seen_tickets` that is absent from the current position
list: when it is a synthetic string containing an underscore, the prefix is
parsed back to a price, `closed_levels[price] = time.time()` is written and
that price is discarded from every symbol's pending cache; a plain broker
ticket writes nothing.  Either way the ticket is dropped from the seen set.
Returns (closed levels, pending caches, remaining seen tickets). -/
def sweep_closed_tickets (now : ℚ) (current : List TicketId) :
    List TicketId → List (ℚ × ℚ) → List (String × List ℚ) →
    List (ℚ × ℚ) × List (String × List ℚ) × List TicketId
  | [], closedLevels, cache => (closedLevels, cache, [])
  | t :: rest, closedLevels, cache =>
    if t ∈ current then
      let r := sweep_closed_tickets now current rest closedLevels cache
      (r.1, r.2.1, t :: r.2.2)
    else
      match t with
      | TicketId.synth p _ =>
        sweep_closed_tickets now current rest
          (upsert_closed_level p now closedLevels)
          (cache.map fun sc => (sc.1, sc.2.filter fun q => decide (q ≠ p)))
      | TicketId.real _ =>
        sweep_closed_tickets now current rest closedLevels cache

/-! The duplicate / proximity gate and `safe_place_order` (C4, C8, C10). -/

/-- Broker symbol metadata (`mt5.symbol_info`): decimal digits, point size and
`trade_stops_level` (minimum stop distance in points). -/
structure SymbolInfo where
  digits : ℕ
  point : ℚ
  trade_stops_level : ℚ
deriving DecidableEq, Repr

/-- A broker tick (`mt5.symbol_info_tick`). -/
structure Tick where
  bid : ℚ
  ask : ℚ
deriving DecidableEq, Repr

/-- The broker view a symbol worker observes during one call: its pending
orders and open positions, optional symbol info and tick, and the
`mt5.order_send` primitive. -/
structure BrokerEnv where
  pending : List PendingOrder
  positions : List Position
  info : Option SymbolInfo
  tick : Option Tick
  send : OrderRequest → Option OrderSendResult

/-- Symbol digits with the code's default of 5 when `symbol_info` is missing
(`getattr(info, "digits", 5) if info else 5`). -/
def env_digits (env : BrokerEnv) : ℕ :=
  match env.info with
  | some i => i.digits
  | none => 5

/-- Point size with the code's fallback `10**-digits`. -/
def env_point (env : BrokerEnv) : ℚ :=
  match env.info with
  | some i => i.point
  | none => 1 / 10 ^ (5 : ℕ)

/-- `level_has_existing_order_or_position` (utils/utils.py lines 200-236):
the aligned level is already in the pending cache, or some broker pending
order aligns to it, or some open position aligns to it.  (The function's
cache-refresh side effect does not change its Boolean outcome.) -/
def level_has_existing_order_or_position (env : BrokerEnv) (cache : List ℚ)
    (priceAligned brick : ℚ) : Bool :=
  decide (priceAligned ∈ cache) ||
  (env.pending.any fun o =>
    match o.price_open with
    | some po =>
      decide (align_price_to_grid_symbol po brick RoundMode.nearest = priceAligned)
    | none => false) ||
  (env.positions.any fun p =>
    decide (align_price_to_grid_symbol p.price_open brick RoundMode.nearest = priceAligned))

/-- The "conservative SMALL threshold" of utils/utils.py lines 272-278:
`min(brick/10, point/10)` for a positive brick, else `point/10`; a
non-positive result falls back to `float(point) or 1e-5`. -/
def proximity_threshold (brick point : ℚ) : ℚ :=
  let t := if 0 < brick then min (brick / 10) (point / 10) else point / 10
  if t ≤ 0 then (if point = 0 then 1 / 10 ^ (5 : ℕ) else point) else t

/-- `safe_place_order` (utils/utils.py lines 239-329).  In order: align the
candidate; reject when the aligned price is a key of a non-empty
`closed_levels` ledger (Python: `if closed_levels and price_aligned in
closed_levels`); reject when `level_has_existing_order_or_position` fires;
reject when the server-side `order_exists` confirms a duplicate; reject when
an opposing-direction open position sits within the small threshold of the
candidate; reject when the candidate violates the broker minimum distance
from the current ask/bid (only checked when both info and tick exist);
finally delegate to `place_order` and report whether it returned a result.
The pending-cache bookkeeping on success does not affect the Boolean
outcome. -/
def safe_place_order (env : BrokerEnv) (cache : List ℚ) (otype : ℕ)
    (price volume brick : ℚ) (slPips tpPips : Option ℚ)
    (closedLevels : List (ℚ × ℚ)) : Bool :=
  let priceAligned := align_price_to_grid_symbol price brick RoundMode.nearest
  if closedLevels ≠ [] ∧ priceAligned ∈ closedLevels.map Prod.fst then false
  else if level_has_existing_order_or_position env cache priceAligned brick then
    false
  else if order_exists (env_digits env) env.pending priceAligned otype then false
  else
    let point := env_point env
    let threshold := proximity_threshold brick point
    let blockedByOpposing := env.positions.any fun p =>
      let alignedOp := align_price_to_grid_symbol p.price_open brick RoundMode.nearest
      (decide (otype = ORDER_TYPE_BUY_STOP) && decide (p.ptype = 1) &&
        decide (|priceAligned - alignedOp| < threshold)) ||
      (decide (otype = ORDER_TYPE_SELL_STOP) && decide (p.ptype = 0) &&
        decide (|priceAligned - alignedOp| < threshold))
    if blockedByOpposing then false
    else
      let tooClose :=
        match env.info, env.tick with
        | some i, some t =>
          let pd := if i.point = 0 then 1 else i.point
          let minDist := i.trade_stops_level * pd
          (decide (otype = ORDER_TYPE_BUY_STOP) &&
            decide (priceAligned ≤ t.ask + minDist)) ||
          (decide (otype = ORDER_TYPE_SELL_STOP) &&
            decide (priceAligned ≥ t.bid - minDist))
        | _, _ => false
      if tooClose then false
      else
        match place_order (env_digits env) env.pending env.send otype
          priceAligned volume slPips tpPips with
        | some _ => true
        | none => false

/-! Mirror-on-fill order generation (C8). -/

/-- The `trade_side` restriction of a SymbolConfig. -/
inductive TradeSide where
  | buy
  | sell
  | both
deriving DecidableEq, Repr

/-- The sell-stop mirror levels generated for a newly observed buy position
(utils/utils.py lines 442 and 447-448): the raw fill price is first aligned
with the default "nearest" mode, then for `i = 1..count` the candidate is
`align(aligned_fill - brick_size * i, mode="down")`. -/
def mirror_sell_candidates (fillRaw brick : ℚ) (count : ℕ) : List ℚ :=
  (List.range count).map fun i : ℕ =>
    align_price_to_grid_symbol
      (align_price_to_grid_symbol fillRaw brick RoundMode.nearest
        - brick * ((i : ℚ) + 1))
      brick RoundMode.down

/-- The buy-stop mirror levels for a newly observed sell position
(utils/utils.py lines 471-472), mirrored upward with mode "up". -/
def mirror_buy_candidates (fillRaw brick : ℚ) (count : ℕ) : List ℚ :=
  (List.range count).map fun i : ℕ =>
    align_price_to_grid_symbol
      (align_price_to_grid_symbol fillRaw brick RoundMode.nearest
        + brick * ((i : ℚ) + 1))
      brick RoundMode.up

/-- The gate run on one sell-stop mirror candidate (utils/utils.py lines
449-467): skip when the candidate is a key of a non-empty cool-down ledger;
skip when `level_has_existing_order_or_position` fires; skip when the
candidate is already in the pending cache; skip when the server-side
`order_exists` confirms a pending sell-stop there; otherwise attempt
`safe_place_order` and report whether it placed.  (Each successful placement
adds only its own level to the pending cache; distinct candidates therefore
do not disturb one another and the cache can be threaded unchanged.) -/
def mirror_attempt_places (env : BrokerEnv) (cache : List ℚ)
    (closedLevels : List (ℚ × ℚ)) (brick volume : ℚ)
    (slPips tpPips : Option ℚ) (sellPrice : ℚ) : Bool :=
  if closedLevels ≠ [] ∧ sellPrice ∈ closedLevels.map Prod.fst then false
  else if level_has_existing_order_or_position env cache sellPrice brick then
    false
  else if sellPrice ∈ cache then false
  else if order_exists (env_digits env) env.pending sellPrice ORDER_TYPE_SELL_STOP
  then false
  else safe_place_order env cache ORDER_TYPE_SELL_STOP sellPrice volume brick
    slPips tpPips closedLevels

/-- The sell-stop mirrors actually placed for one newly observed buy position
(utils/utils.py lines 446-467): nothing unless the symbol permits sell-side
orders; otherwise each candidate that passes the gate. -/
def handle_new_buy_position_mirrors (env : BrokerEnv) (cache : List ℚ)
    (closedLevels : List (ℚ × ℚ)) (side : TradeSide)
    (fillRaw brick volume : ℚ) (slPips tpPips : Option ℚ)
    (initialSell : ℕ) : List ℚ :=
  if side = TradeSide.sell ∨ side = TradeSide.both then
    (mirror_sell_candidates fillRaw brick initialSell).filter
      (mirror_attempt_places env cache closedLevels brick volume slPips tpPips)
  else []

/-! Engine-level wiring (C1, C10). -/

/-- The engine state owned by `run_dynamic_grid` (utils/utils.py lines
625-627): ONE `closed_levels` dictionary created at line 625 and passed to
every worker thread at line 639 (so a single shared field here), the
process-wide `_pending_cache`, and one seen-ticket set per symbol. -/
structure EngineState where
  closedLevels : List (ℚ × ℚ)
  cache : List (String × List ℚ)
  seen : String → List TicketId

/-- Symbol `sym`'s worker running the closed-ticket sweep of its Mirror
Handler against the shared engine state. -/
def engine_mirror_sweep (sym : String) (now : ℚ) (current : List TicketId)
    (st : EngineState) : EngineState :=
  let r := sweep_closed_tickets now current (st.seen sym) st.closedLevels st.cache
  { closedLevels := r.1
    cache := r.2.1
    seen := fun s => if s = sym then r.2.2 else st.seen s }

/-- Any symbol's worker calling `safe_place_order`: per the wiring of
`run_dynamic_grid`, the `closed_levels` argument is always the engine's one
shared ledger, and `safe_place_order`'s cool-down test (utils/utils.py lines
246-248) consults only the aligned price, never a symbol. -/
def engine_safe_place_order (st : EngineState) (env : BrokerEnv)
    (cache : List ℚ) (otype : ℕ) (price volume brick : ℚ)
    (slPips tpPips : Option ℚ) : Bool :=
  safe_place_order env cache otype price volume brick slPips tpPips
    st.closedLevels

/-- Account snapshot as returned by `mt5.account_info` (balance, equity). -/
structure AccountInfo where
  balance : ℚ
  equity : ℚ
deriving DecidableEq, Repr

/-- The decision taken by each iteration of the monitor loop of
`run_dynamic_grid` (utils/utils.py lines 646-650): the loop keeps running
while `trading_active_flag()` is truthy and does nothing else;
`mt5.account_info` is never consulted anywhere in the engine. -/
def run_dynamic_grid_monitor_continue (tradingActive : Bool)
    (_acct : AccountInfo) (_drawdownCeiling : ℚ) : Bool :=
  tradingActive

/-- Whether an iteration of the monitor loop of `run_dynamic_grid` emits a
stop signal towards the workers: the loop body (utils/utils.py lines
646-652) is `time.sleep(0.5)` plus empty exception handlers — it never sets
any flag the workers poll, so no iteration signals a stop. -/
def run_dynamic_grid_stop_signal (_tradingActive : Bool)
    (_acct : AccountInfo) (_drawdownCeiling : ℚ) : Bool :=
  false

/-- Modelled from the spec: the account-wide kill switch of §4.8 — "Before
each full pass, computes account drawdown = balance − equity; if it meets or
exceeds the configured ceiling, signals all workers to stop."  No such check
exists in the source. -/
def spec_drawdown_stop_signal (acct : AccountInfo) (ceiling : ℚ) : Bool :=
  decide (ceiling ≤ acct.balance - acct.equity)

/-- A broker view with no pending orders or positions, standard metadata,
both tick sides quoted at 100 and a gateway that accepts every request. -/
def emptyEnv : BrokerEnv where
  pending := []
  positions := []
  info := some { digits := 5, point := 1 / 10 ^ (5 : ℕ), trade_stops_level := 0 }
  tick := some { bid := 100, ask := 100 }
  send := fun _ => some { retcode := TRADE_RETCODE_DONE }

/-- A gateway that rejects fill mode RETURN (retcode 10030, invalid fill)
but fills FOK and IOC requests. -/
def fokOnlySend : OrderRequest → Option OrderSendResult := fun req =>
  match req.type_filling with
  | FillMode.ret => some { retcode := 10030 }
  | _ => some { retcode := TRADE_RETCODE_DONE }

/-- A gateway that accepts every request. -/
def alwaysDoneSend : OrderRequest → Option OrderSendResult := fun _ =>
  some { retcode := TRADE_RETCODE_DONE }

/-! Helper lemmas: evaluating `pythonRound`, `roundTo` and the aligner. -/

theorem floor_le_pythonRound (q : ℚ) : ⌊q⌋ ≤ pythonRound q := by
  unfold pythonRound
  split_ifs <;> omega

theorem pythonRound_le_floor_add_one (q : ℚ) : pythonRound q ≤ ⌊q⌋ + 1 := by
  unfold pythonRound
  split_ifs <;> omega

theorem pythonRound_intCast (n : ℤ) : pythonRound (n : ℚ) = n := by
  unfold pythonRound
  rw [Int.floor_intCast]
  simp

theorem pythonRound_le_ceil (q : ℚ) : pythonRound q ≤ ⌈q⌉ := by
  unfold pythonRound
  split_ifs with h1 h2 h3
  · exact Int.floor_le_ceil q
  · have hlt : (⌊q⌋ : ℚ) < q := by linarith
    have := Int.lt_ceil.mpr hlt
    omega
  · exact Int.floor_le_ceil q
  · have hlt : (⌊q⌋ : ℚ) < q := by linarith
    have := Int.lt_ceil.mpr hlt
    omega

/-- If `q * 10^d` is an integer then rounding at `d` decimals is exact. -/
theorem roundTo_eq_self (d : ℕ) (q : ℚ) (z : ℤ) (h : q * 10 ^ d = (z : ℚ)) :
    roundTo d q = q := by
  unfold roundTo
  rw [h, pythonRound_intCast, ← h]
  have hpow : (10 : ℚ) ^ d ≠ 0 := by positivity
  field_simp

theorem pythonRound_eval_lt (q : ℚ) (z : ℤ) (hz : ⌊q⌋ = z)
    (h : q - (z : ℚ) < 1/2) : pythonRound q = z := by
  unfold pythonRound
  rw [hz, if_pos h]

theorem pythonRound_eval_gt (q : ℚ) (z : ℤ) (hz : ⌊q⌋ = z)
    (h : 1/2 < q - (z : ℚ)) : pythonRound q = z + 1 := by
  unfold pythonRound
  rw [hz, if_neg (by linarith), if_pos h]

theorem pythonRound_eval_half_even (q : ℚ) (z : ℤ) (hz : ⌊q⌋ = z)
    (h : q - (z : ℚ) = 1/2) (he : Even z) : pythonRound q = z := by
  unfold pythonRound
  rw [hz, if_neg (by linarith), if_neg (by linarith), if_pos he]

theorem pythonRound_eval_half_odd (q : ℚ) (z : ℤ) (hz : ⌊q⌋ = z)
    (h : q - (z : ℚ) = 1/2) (ho : ¬ Even z) : pythonRound q = z + 1 := by
  unfold pythonRound
  rw [hz, if_neg (by linarith), if_neg (by linarith), if_neg ho]

theorem ceil_eval (q : ℚ) (z : ℤ) (h1 : (z : ℚ) - 1 < q) (h2 : q ≤ (z : ℚ)) :
    ⌈q⌉ = z :=
  Int.ceil_eq_iff.mpr ⟨h1, h2⟩

theorem align_eval (price brick : ℚ) (mode : RoundMode) (n : ℤ) (res : ℚ)
    (hb : ¬ brick ≤ 0) (hn : alignIndex mode (price / brick) = n)
    (hres : roundTo 8 ((n : ℚ) * brick) = res) :
    align_price_to_grid_symbol price brick mode = res := by
  unfold align_price_to_grid_symbol
  rw [if_neg hb, hn, hres]

theorem floor_intCast_add_gridEps (z : ℤ) : ⌊(z : ℚ) + gridEps⌋ = z := by
  rw [Int.floor_eq_iff]
  constructor
  · have : (0 : ℚ) ≤ gridEps := by norm_num [gridEps]
    linarith
  · have : gridEps < 1 := by norm_num [gridEps]
    linarith

theorem ceil_intCast_sub_gridEps (z : ℤ) : ⌈(z : ℚ) - gridEps⌉ = z := by
  rw [Int.ceil_eq_iff]
  constructor
  · have : gridEps < 1 := by norm_num [gridEps]
    linarith
  · have : (0 : ℚ) ≤ gridEps := by norm_num [gridEps]
    linarith

theorem alignIndex_intCast (mode : RoundMode) (z : ℤ) :
    alignIndex mode (z : ℚ) = z := by
  cases mode
  · exact pythonRound_intCast z
  · exact ceil_intCast_sub_gridEps z
  · exact floor_intCast_add_gridEps z

theorem brick_mul_cancel (m : ℕ) (n : ℤ) :
    ((n : ℚ) * ((m : ℚ) / 10 ^ 8)) * 10 ^ 8 = ((n * m : ℤ) : ℚ) := by
  have hcancel : ((m : ℚ) / 10 ^ 8) * 10 ^ 8 = (m : ℚ) := by
    rw [div_mul_cancel₀]
    positivity
  rw [mul_assoc, hcancel]
  push_cast
  ring

/-- When the brick size is a whole multiple of the aligner's fixed `1e-8`
precision, aligning an exact multiple of the brick returns it unchanged. -/
theorem align_int_mul_eq (m : ℕ) (hm : 0 < m) (z : ℤ) (mode : RoundMode) :
    align_price_to_grid_symbol ((z : ℚ) * ((m : ℚ) / 10 ^ 8)) ((m : ℚ) / 10 ^ 8) mode
      = (z : ℚ) * ((m : ℚ) / 10 ^ 8) := by
  have hb : (0 : ℚ) < (m : ℚ) / 10 ^ 8 := by positivity
  have hbne : ((m : ℚ) / 10 ^ 8) ≠ 0 := ne_of_gt hb
  have hratio : (z : ℚ) * ((m : ℚ) / 10 ^ 8) / ((m : ℚ) / 10 ^ 8) = (z : ℚ) :=
    mul_div_cancel_right₀ _ hbne
  unfold align_price_to_grid_symbol
  rw [if_neg (not_le.mpr hb), hratio, alignIndex_intCast]
  exact roundTo_eq_self 8 _ (z * m) (brick_mul_cancel m z)

/-- Aligning any price with such a brick size lands on an exact integer
multiple of the brick. -/
theorem align_eq_int_mul (m : ℕ) (hm : 0 < m) (price : ℚ) (mode : RoundMode) :
    ∃ z : ℤ, align_price_to_grid_symbol price ((m : ℚ) / 10 ^ 8) mode
      = (z : ℚ) * ((m : ℚ) / 10 ^ 8) := by
  have hb : (0 : ℚ) < (m : ℚ) / 10 ^ 8 := by positivity
  refine ⟨alignIndex mode (price / ((m : ℚ) / 10 ^ 8)), ?_⟩
  unfold align_price_to_grid_symbol
  rw [if_neg (not_le.mpr hb)]
  exact roundTo_eq_self 8 _ (alignIndex mode (price / ((m : ℚ) / 10 ^ 8)) * m)
    (brick_mul_cancel m _)

/-- Convenience form of `align_int_mul_eq` for concrete literals. -/
theorem align_self_of_exact (price brick : ℚ) (m : ℕ) (hm : 0 < m)
    (hbrick : brick = (m : ℚ) / 10 ^ 8) (z : ℤ)
    (hprice : price = (z : ℚ) * brick) (mode : RoundMode) :
    align_price_to_grid_symbol price brick mode = price := by
  subst hbrick
  subst hprice
  exact align_int_mul_eq m hm z mode

/-! Helper lemmas: trailing-stop rounding bounds. -/

theorem tsl_round_price_ge (k : ℤ) (x brick : ℚ) (hb : 0 < brick)
    (h : (k : ℚ) * brick < x) : (k : ℚ) * brick ≤ tsl_round_price x brick := by
  unfold tsl_round_price
  rw [if_neg (ne_of_gt hb)]
  have hk : (k : ℚ) ≤ x / brick := by
    rw [le_div_iff₀ hb]
    linarith
  have hfl : k ≤ ⌊x / brick⌋ := Int.le_floor.mpr hk
  have hpr : k ≤ pythonRound (x / brick) :=
    le_trans hfl (floor_le_pythonRound _)
  have : (k : ℚ) ≤ (pythonRound (x / brick) : ℚ) := by exact_mod_cast hpr
  exact mul_le_mul_of_nonneg_right this (le_of_lt hb)

theorem tsl_round_price_le (k : ℤ) (x brick : ℚ) (hb : 0 < brick)
    (h : x < (k : ℚ) * brick) : tsl_round_price x brick ≤ (k : ℚ) * brick := by
  unfold tsl_round_price
  rw [if_neg (ne_of_gt hb)]
  have hk : x / brick ≤ (k : ℚ) := by
    rw [div_le_iff₀ hb]
    linarith
  have hcl : ⌈x / brick⌉ ≤ k := Int.ceil_le.mpr hk
  have hpr : pythonRound (x / brick) ≤ k :=
    le_trans (pythonRound_le_ceil _) hcl
  have : (pythonRound (x / brick) : ℚ) ≤ (k : ℚ) := by exact_mod_cast hpr
  exact mul_le_mul_of_nonneg_right this (le_of_lt hb)

/-! Helper lemmas: the closed-ticket sweep. -/

theorem upsert_mem_preserved (x p now : ℚ) (levels : List (ℚ × ℚ))
    (h : (x, now) ∈ levels) : (x, now) ∈ upsert_closed_level p now levels := by
  unfold upsert_closed_level
  split_ifs with hin
  · have himg := List.mem_map_of_mem
      (fun e : ℚ × ℚ => if e.1 = p then (p, now) else e) h
    by_cases hx : x = p
    · subst hx
      simpa using himg
    · simpa [hx] using himg
  · exact List.mem_cons_of_mem _ h

theorem upsert_self_mem (p now : ℚ) (levels : List (ℚ × ℚ)) :
    (p, now) ∈ upsert_closed_level p now levels := by
  unfold upsert_closed_level
  split_ifs with hin
  · obtain ⟨e, he, hep⟩ := List.mem_map.mp hin
    have himg := List.mem_map_of_mem
      (fun e : ℚ × ℚ => if e.1 = p then (p, now) else e) he
    simpa [hep] using himg
  · exact List.mem_cons_self _ _

theorem sweep_preserves_closed (now : ℚ) (current : List TicketId) :
    ∀ (seen : List TicketId) (cl : List (ℚ × ℚ)) (ca : List (String × List ℚ))
      (x : ℚ), (x, now) ∈ cl →
      (x, now) ∈ (sweep_closed_tickets now current seen cl ca).1 := by
  intro seen
  induction seen with
  | nil => intro cl ca x h; simpa [sweep_closed_tickets] using h
  | cons t rest ih =>
    intro cl ca x h
    simp only [sweep_closed_tickets]
    split_ifs with hmem
    · exact ih cl ca x h
    · cases t with
      | synth p v => exact ih _ _ x (upsert_mem_preserved x p now cl h)
      | real n => exact ih cl ca x h

theorem sweep_records_synth (now : ℚ) (current : List TicketId) :
    ∀ (seen : List TicketId) (cl : List (ℚ × ℚ)) (ca : List (String × List ℚ))
      (p v : ℚ), TicketId.synth p v ∈ seen → TicketId.synth p v ∉ current →
      (p, now) ∈ (sweep_closed_tickets now current seen cl ca).1 := by
  intro seen
  induction seen with
  | nil => intro cl ca p v h; exact absurd h (List.not_mem_nil _)
  | cons t rest ih =>
    intro cl ca p v hseen habsent
    simp only [sweep_closed_tickets]
    rcases List.mem_cons.mp hseen with heq | htail
    · subst heq
      rw [if_neg habsent]
      exact sweep_preserves_closed now current rest _ _ p
        (upsert_self_mem p now cl)
    · split_ifs with hmem
      · exact ih cl ca p v htail habsent
      · cases t with
        | synth q w => exact ih _ _ p v htail habsent
        | real n => exact ih cl ca p v htail habsent

theorem sweep_seen_filter (now : ℚ) (current : List TicketId) :
    ∀ (seen : List TicketId) (cl : List (ℚ × ℚ)) (ca : List (String × List ℚ)),
      (sweep_closed_tickets now current seen cl ca).2.2
        = seen.filter fun t => decide (t ∈ current) := by
  intro seen
  induction seen with
  | nil => intro cl ca; simp [sweep_closed_tickets]
  | cons t rest ih =>
    intro cl ca
    simp only [sweep_closed_tickets]
    split_ifs with hmem
    · simp [List.filter_cons, hmem, ih]
    · cases t with
      | synth p v => simp [List.filter_cons, hmem, ih]
      | real n => simp [List.filter_cons, hmem, ih]

theorem sweep_real_only_unchanged (now : ℚ) (current : List TicketId) :
    ∀ (seen : List TicketId) (cl : List (ℚ × ℚ)) (ca : List (String × List ℚ)),
      (∀ t ∈ seen, t ∉ current → ∃ n, t = TicketId.real n) →
      (sweep_closed_tickets now current seen cl ca).1 = cl := by
  intro seen
  induction seen with
  | nil => intro cl ca _; simp [sweep_closed_tickets]
  | cons t rest ih =>
    intro cl ca hreal
    simp only [sweep_closed_tickets]
    split_ifs with hmem
    · exact ih cl ca fun t ht => hreal t (List.mem_cons_of_mem _ ht)
    · cases t with
      | synth p v =>
        obtain ⟨n, hn⟩ := hreal (TicketId.synth p v) (List.mem_cons_self _ _) hmem
        exact absurd hn (by simp)
      | real n => exact ih cl ca fun t ht => hreal t (List.mem_cons_of_mem _ ht)

/-! Helper lemmas: the cool-down check inside `safe_place_order`. -/

theorem safe_place_order_blocked_by_closed (env : BrokerEnv) (cache : List ℚ)
    (otype : ℕ) (price volume brick : ℚ) (slPips tpPips : Option ℚ)
    (levels : List (ℚ × ℚ)) (p t : ℚ) (hmem : (p, t) ∈ levels)
    (halign : align_price_to_grid_symbol price brick RoundMode.nearest = p) :
    safe_place_order env cache otype price volume brick slPips tpPips levels
      = false := by
  have h1 : levels ≠ [] := List.ne_nil_of_mem hmem
  have h2 : align_price_to_grid_symbol price brick RoundMode.nearest
      ∈ levels.map Prod.fst := by
    rw [halign]
    exact List.mem_map_of_mem Prod.fst hmem
  unfold safe_place_order
  rw [if_pos ⟨h1, h2⟩]

/-! Claim C1: the account-drawdown kill switch. -/

/-- C1 counterexample: at balance 1000, equity 940 and ceiling 50 the
drawdown (60) meets the ceiling, so the spec-modelled kill switch fires —
yet the engine's monitor loop emits no stop signal and simply keeps running,
because `run_dynamic_grid` never computes a drawidown nor touches any worker
flag.  This falsifies the claim at that concrete scenario. -/
theorem c1_drawdown_kill_switch_cex :
    spec_drawdown_stop_signal ⟨1000, 940⟩ 50 = true ∧
    run_dynamic_grid_stop_signal true ⟨1000, 940⟩ 50 = false ∧
    run_dynamic_grid_monitor_continue true ⟨1000, 940⟩ 50 = true := by
  refine ⟨?_, rfl, rfl⟩
  norm_num [spec_drawdown_stop_signal]

/-- C1 (amended): `run_dynamic_grid` performs no drawdown computation at all;
its monitor loop never signals the workers to stop, and whether it keeps
running depends only on the external `trading_active_flag`, not on balance,
equity or any ceiling. -/
theorem c1_monitor_ignores_account (flag : Bool) (acct : AccountInfo)
    (ceiling : ℚ) :
    run_dynamic_grid_stop_signal flag acct ceiling = false ∧
    run_dynamic_grid_monitor_continue flag acct ceiling = flag :=
  ⟨rfl, rfl⟩

/-! Claim C7: per-tick ordering of the three reconciliation steps. -/

/-- C7 counterexample: the Far-Order Pruner is never invoked in
`run_symbol_loop`, so the claimed per-tick order "Pruner, then Maintainer,
then Mirror Handler" cannot occur on any tick. -/
theorem c7_pruner_never_runs_cex :
    TickStep.farOrderPruner ∉ run_symbol_loop_tick_trace := by
  decide

/-- C7 (amended): within one symbol worker's tick the Grid Maintainer runs
before the Mirror Handler, but the Far-Order Pruner is not part of the tick
at all (its implementation is imported yet never called). -/
theorem c7_maintainer_before_mirror :
    run_symbol_loop_tick_trace.indexOf TickStep.gridMaintainer
      < run_symbol_loop_tick_trace.indexOf TickStep.mirrorHandler ∧
    TickStep.gridMaintainer ∈ run_symbol_loop_tick_trace ∧
    TickStep.mirrorHandler ∈ run_symbol_loop_tick_trace ∧
    TickStep.farOrderPruner ∉ run_symbol_loop_tick_trace := by
  decide

/-! Claim C9: idempotence of the price aligner. -/

/-- C9 counterexample: with mode "up" and brickSize `2.6e-8` (which is
positive, hence valid per the configuration invariant), the aligner is not
idempotent: `align(2.6e-8) = 3e-8` (the fixed `round(..., 8)` step) but
`align(3e-8) = 5e-8`. -/
theorem c9_align_idempotence_cex :
    align_price_to_grid_symbol
        (align_price_to_grid_symbol (13 / 500000000) (13 / 500000000) RoundMode.up)
        (13 / 500000000) RoundMode.up
      ≠ align_price_to_grid_symbol (13 / 500000000) (13 / 500000000) RoundMode.up := by
  have hb : ¬ ((13 : ℚ) / 500000000 ≤ 0) := by norm_num
  have h1 : align_price_to_grid_symbol (13 / 500000000) (13 / 500000000)
      RoundMode.up = 3 / 10 ^ 8 := by
    apply align_eval _ _ _ 1 _ hb
    · have hx : (13 : ℚ) / 500000000 / (13 / 500000000) = 1 := by norm_num
      simp only [alignIndex, hx]
      exact ceil_eval _ 1 (by norm_num [gridEps]) (by norm_num [gridEps])
    · unfold roundTo
      have hx : ((1 : ℤ) : ℚ) * (13 / 500000000) * 10 ^ 8 = 13 / 5 := by
        norm_num
      rw [hx, pythonRound_eval_gt (13 / 5) 2 (by norm_num) (by norm_num)]
      norm_num
  have h2 : align_price_to_grid_symbol (3 / 10 ^ 8) (13 / 500000000)
      RoundMode.up = 5 / 10 ^ 8 := by
    apply align_eval _ _ _ 2 _ hb
    · have hx : (3 : ℚ) / 10 ^ 8 / (13 / 500000000) = 15 / 13 := by norm_num
      simp only [alignIndex, hx]
      exact ceil_eval _ 2 (by norm_num [gridEps]) (by norm_num [gridEps])
    · unfold roundTo
      have hx : ((2 : ℤ) : ℚ) * (13 / 500000000) * 10 ^ 8 = 26 / 5 := by
        norm_num
      rw [hx, pythonRound_eval_lt (26 / 5) 5 (by norm_num) (by norm_num)]
      norm_num
  rw [h1, h2]
  norm_num

/-- C9 (amended): the aligner is idempotent for every price and every
rounding mode whenever the brick size is a positive integer multiple of the
aligner's fixed `1e-8` rounding precision (every brick size expressible with
at most 8 decimal places); finer brick sizes can break idempotence. -/
theorem c9_align_idempotent_amended (price : ℚ) (m : ℕ) (hm : 0 < m)
    (mode : RoundMode) :
    align_price_to_grid_symbol
        (align_price_to_grid_symbol price ((m : ℚ) / 10 ^ 8) mode)
        ((m : ℚ) / 10 ^ 8) mode
      = align_price_to_grid_symbol price ((m : ℚ) / 10 ^ 8) mode := by
  obtain ⟨z, hz⟩ := align_eq_int_mul m hm price mode
  rw [hz]
  exact align_int_mul_eq m hm z mode

/-- C9 witness: idempotence at price `7/3`, brick `0.5` (= 50000000·1e-8),
mode "up". -/
theorem c9_align_idempotent_witness :
    0 < 50000000 ∧
    align_price_to_grid_symbol
        (align_price_to_grid_symbol (7 / 3) (((50000000 : ℕ) : ℚ) / 10 ^ 8)
          RoundMode.up)
        (((50000000 : ℕ) : ℚ) / 10 ^ 8) RoundMode.up
      = align_price_to_grid_symbol (7 / 3) (((50000000 : ℕ) : ℚ) / 10 ^ 8)
          RoundMode.up :=
  ⟨by norm_num,
   c9_align_idempotent_amended (7 / 3) 50000000 (by norm_num) RoundMode.up⟩

/-! Claim C5: trailing-stop monotonicity. -/

/-- C5 counterexample: a buy position with existing stop 1.2, trailing
distance 0.1, brick 1 and bid 1.31 satisfies the advance condition
(1.31 − 1.2 > 0.1), but the brick rounding maps the candidate 1.21 down to
1.0 — the adjustment LOWERS the stop from 1.2 to 1.0, loosening it. -/
theorem c5_trailing_loosens_cex :
    update_trailing_stop_result PosSide.buy (131 / 100) 0 (6 / 5) (1 / 10) 1
      = 1 ∧ (1 : ℚ) < 6 / 5 := by
  constructor
  · have htsl : tsl_round_price (131 / 100 - 1 / 10) 1 = 1 := by
      unfold tsl_round_price
      rw [if_neg (by norm_num : (1 : ℚ) ≠ 0)]
      have hx : ((131 : ℚ) / 100 - 1 / 10) / 1 = 121 / 100 := by norm_num
      rw [hx, pythonRound_eval_lt (121 / 100) 1 (by norm_num) (by norm_num)]
      norm_num
    have hnew : update_trailing_new_sl PosSide.buy (131 / 100) 0 (6 / 5)
        (1 / 10) 1 = some 1 := by
      simp only [update_trailing_new_sl]
      rw [if_pos (Or.inr (by norm_num)), htsl]
    rw [update_trailing_stop_result, hnew, Option.getD_some]
  · norm_num

/-- C5 (amended): when the existing stop is itself an exact (nonzero)
integer multiple of the brick size — as is every stop previously written by
the adjuster — a trailing adjustment never loosens it: a buy position's
stop never decreases and a sell position's stop never increases.  An
existing stop off the brick grid can be moved against the position by up to
half a brick (see the counterexample). -/
theorem c5_trailing_tightens_on_grid (k : ℤ) (bid ask sl trailing brick : ℚ)
    (hb : 0 < brick) (hsl : sl = (k : ℚ) * brick) (h0 : sl ≠ 0) :
    sl ≤ update_trailing_stop_result PosSide.buy bid ask sl trailing brick ∧
    update_trailing_stop_result PosSide.sell bid ask sl trailing brick ≤ sl := by
  constructor
  · rw [update_trailing_stop_result]
    simp only [update_trailing_new_sl]
    split_ifs with hc
    · rw [Option.getD_some]
      rcases hc with h0c | hgap
      · exact absurd h0c h0
      · have hlt : (k : ℚ) * brick < bid - trailing := by
          rw [← hsl]; linarith
        rw [hsl]
        exact tsl_round_price_ge k _ brick hb hlt
    · rw [Option.getD_none]
  · rw [update_trailing_stop_result]
    simp only [update_trailing_new_sl]
    split_ifs with hc
    · rw [Option.getD_some]
      rcases hc with h0c | hgap
      · exact absurd h0c h0
      · have hlt : ask + trailing < (k : ℚ) * brick := by
          rw [← hsl]; linarith
        rw [hsl]
        exact tsl_round_price_le k _ brick hb hlt
    · rw [Option.getD_none]

/-- C5 witness: brick 1, existing stop 1 (= 1·1), buy bid 3, sell ask 0,
trailing distance 1/2; both adjustments tighten. -/
theorem c5_trailing_tightens_witness :
    (0 : ℚ) < 1 ∧ (1 : ℚ) = ((1 : ℤ) : ℚ) * 1 ∧ (1 : ℚ) ≠ 0 ∧
    ((1 : ℚ) ≤ update_trailing_stop_result PosSide.buy 3 0 1 (1 / 2) 1 ∧
      update_trailing_stop_result PosSide.sell 3 0 1 (1 / 2) 1 ≤ 1) :=
  ⟨by norm_num, by norm_num, by norm_num,
   c5_trailing_tightens_on_grid 1 3 0 1 (1 / 2) 1 (by norm_num) (by norm_num)
     (by norm_num)⟩

/-! Claim C4: cool-down expiry and blocking. -/

/-- C4 counterexample: the purge removes an entry only when
`now - t > block_seconds` holds STRICTLY, so at query time exactly
`t + coolDownSeconds` (here t = 0, cool-down 300, query 300) the entry is
still in the blocking set — and it still blocks placement at its price,
contradicting "absent at any query time ≥ t + coolDownSeconds". -/
theorem c4_cooldown_boundary_cex :
    purge_closed_levels 300 300 [(100, 0)] = [(100, 0)] ∧
    safe_place_order emptyEnv [] ORDER_TYPE_BUY_STOP 100 1 1 none none
      [(100, 0)] = false := by
  constructor
  · simp [purge_closed_levels]
  · exact safe_place_order_blocked_by_closed emptyEnv [] ORDER_TYPE_BUY_STOP
      100 1 1 none none [(100, 0)] 100 0 (by simp)
      (align_self_of_exact 100 1 100000000 (by norm_num) (by norm_num) 100
        (by norm_num) RoundMode.nearest)

/-- C4 (amended): an entry created at time t is purged at every cycle whose
query time satisfies `now > t + coolDownSeconds` STRICTLY (at exactly
`t + coolDownSeconds` it survives one more cycle), and while an entry is
present, `safe_place_order` rejects every candidate whose aligned price
equals the entry's price, for any broker view. -/
theorem c4_cooldown_expiry_and_blocking :
    (∀ (now blockSeconds t p : ℚ) (levels : List (ℚ × ℚ)),
      blockSeconds < now - t →
      (p, t) ∉ purge_closed_levels now blockSeconds levels) ∧
    (∀ (env : BrokerEnv) (cache : List ℚ) (otype : ℕ)
      (price volume brick : ℚ) (slPips tpPips : Option ℚ)
      (levels : List (ℚ × ℚ)) (p t : ℚ),
      (p, t) ∈ levels →
      align_price_to_grid_symbol price brick RoundMode.nearest = p →
      safe_place_order env cache otype price volume brick slPips tpPips levels
        = false) := by
  constructor
  · intro now blockSeconds t p levels hstrict hmem
    simp only [purge_closed_levels, List.mem_filter, decide_eq_true_eq] at hmem
    linarith [hmem.2]
  · intro env cache otype price volume brick slPips tpPips levels p t hmem halign
    exact safe_place_order_blocked_by_closed env cache otype price volume brick
      slPips tpPips levels p t hmem halign

/-- C4 witness: at query time 301 the entry timestamped 0 with cool-down 300
is gone; while present (at 300) it blocks a sell-stop candidate aligning to
its price. -/
theorem c4_cooldown_witness :
    ((300 : ℚ) < 301 - 0) ∧
    ((100 : ℚ), (0 : ℚ)) ∉ purge_closed_levels 301 300 [(100, 0)] ∧
    ((100 : ℚ), (0 : ℚ)) ∈ [((100 : ℚ), (0 : ℚ))] ∧
    safe_place_order emptyEnv [] ORDER_TYPE_SELL_STOP 100 1 1 none none
      [(100, 0)] = false :=
  ⟨by norm_num,
   c4_cooldown_expiry_and_blocking.1 301 300 0 100 [(100, 0)] (by norm_num),
   by simp,
   c4_cooldown_expiry_and_blocking.2 emptyEnv [] ORDER_TYPE_SELL_STOP 100 1 1
     none none [(100, 0)] 100 0 (by simp)
     (align_self_of_exact 100 1 100000000 (by norm_num) (by norm_num) 100
       (by norm_num) RoundMode.nearest)⟩

/-! Claim C3: recording of closed levels by the Mirror Handler. -/

/-- C3 counterexample: a normal broker ticket (the integer 123) whose
position has disappeared is dropped from the seen set WITHOUT any
ClosedLevelEntry being recorded — the sweep records only for the synthetic
string fallback tickets.  Moreover, even for a synthetic ticket (raw fill
100.2, brick 0.5) the recorded key is the RAW price 100.2, not the aligned
fill price 100.0. -/
theorem c3_closed_sweep_cex :
    (sweep_closed_tickets 1000 [] [TicketId.real 123] [] []).1 = [] ∧
    (sweep_closed_tickets 1000 [] [TicketId.real 123] [] []).2.2 = [] ∧
    (sweep_closed_tickets 1000 [] [TicketId.synth (1002 / 10) 1] [] []).1
      = [(1002 / 10, 1000)] ∧
    align_price_to_grid_symbol (1002 / 10) (1 / 2) RoundMode.nearest = 100 ∧
    ((1002 : ℚ) / 10) ≠ 100 := by
  refine ⟨by simp [sweep_closed_tickets], by simp [sweep_closed_tickets],
    by simp [sweep_closed_tickets, upsert_closed_level], ?_, by norm_num⟩
  apply align_eval _ _ _ 200 _ (by norm_num)
  · have hx : (1002 : ℚ) / 10 / (1 / 2) = 1002 / 5 := by norm_num
    simp only [alignIndex, hx]
    exact pythonRound_eval_lt (1002 / 5) 200 (by norm_num) (by norm_num)
  · have hx : ((200 : ℤ) : ℚ) * (1 / 2) = 100 := by norm_num
    rw [hx]
    exact roundTo_eq_self 8 100 10000000000 (by norm_num)

/-- C3 (amended): the sweep always drops every ticket absent from the live
position list from the seen set; it records a ClosedLevelEntry — keyed by
the RAW price parsed from the ticket string, with the current timestamp —
only for disappeared tickets of the synthetic `price_volume` string form;
when every disappeared ticket is a plain broker ticket, the ledger is left
completely unchanged. -/
theorem c3_closed_sweep_amended :
    (∀ (now : ℚ) (current seen : List TicketId) (cl : List (ℚ × ℚ))
        (ca : List (String × List ℚ)),
      (sweep_closed_tickets now current seen cl ca).2.2
        = seen.filter fun t => decide (t ∈ current)) ∧
    (∀ (now : ℚ) (current seen : List TicketId) (cl : List (ℚ × ℚ))
        (ca : List (String × List ℚ)) (p v : ℚ),
      TicketId.synth p v ∈ seen → TicketId.synth p v ∉ current →
      (p, now) ∈ (sweep_closed_tickets now current seen cl ca).1) ∧
    (∀ (now : ℚ) (current seen : List TicketId) (cl : List (ℚ × ℚ))
        (ca : List (String × List ℚ)),
      (∀ t ∈ seen, t ∉ current → ∃ n, t = TicketId.real n) →
      (sweep_closed_tickets now current seen cl ca).1 = cl) :=
  ⟨fun now current seen cl ca => sweep_seen_filter now current seen cl ca,
   fun now current seen cl ca p v h1 h2 =>
     sweep_records_synth now current seen cl ca p v h1 h2,
   fun now current seen cl ca h =>
     sweep_real_only_unchanged now current seen cl ca h⟩

/-- C3 witness: a disappeared synthetic ticket at price 100 records the
entry (100, 5); a disappeared plain ticket 7 records nothing. -/
theorem c3_closed_sweep_witness :
    TicketId.synth 100 1 ∈ [TicketId.synth 100 1] ∧
    TicketId.synth 100 1 ∉ ([] : List TicketId) ∧
    ((100 : ℚ), (5 : ℚ)) ∈
      (sweep_closed_tickets 5 [] [TicketId.synth 100 1] [] []).1 ∧
    (sweep_closed_tickets 5 [] [TicketId.real 7] [] []).1 = [] :=
  ⟨by simp, by simp,
   c3_closed_sweep_amended.2.1 5 [] [TicketId.synth 100 1] [] [] 100 1
     (by simp) (by simp),
   c3_closed_sweep_amended.2.2 5 [] [TicketId.real 7] [] []
     (by intro t ht _; simp at ht; exact ⟨7, ht⟩)⟩

/-! Claim C10: the cool-down ledger is shared across all symbol workers. -/

/-- C10: the closed-level ledger is one shared engine map: whenever symbol
A's mirror-handler sweep records an entry (a synthetic ticket at price `p`
disappeared from A's live positions), a subsequent `safe_place_order` run by
ANY worker — against any broker view, any cache, any order type and any
candidate whose aligned price equals `p` — is rejected.  The blocking test
consults only the aligned price, never a symbol. -/
theorem c10_shared_cooldown_blocks_cross_symbol
    (st : EngineState) (A : String) (now : ℚ) (current : List TicketId)
    (p v : ℚ) (env : BrokerEnv) (cache : List ℚ) (otype : ℕ)
    (price volume brick : ℚ) (slPips tpPips : Option ℚ)
    (hseen : TicketId.synth p v ∈ st.seen A)
    (habsent : TicketId.synth p v ∉ current)
    (halign : align_price_to_grid_symbol price brick RoundMode.nearest = p) :
    engine_safe_place_order (engine_mirror_sweep A now current st) env cache
      otype price volume brick slPips tpPips = false := by
  unfold engine_safe_place_order engine_mirror_sweep
  exact safe_place_order_blocked_by_closed env cache otype price volume brick
    slPips tpPips _ p now
    (sweep_records_synth now current (st.seen A) st.closedLevels st.cache p v
      hseen habsent)
    halign

/-- C10 witness: symbol "EURUSD" records the closed level 100; a worker for
a different symbol (broker view `emptyEnv`) is then blocked at the aligned
candidate 100. -/
theorem c10_shared_cooldown_witness :
    TicketId.synth 100 1 ∈
      (EngineState.mk [] [] fun _ => [TicketId.synth 100 1]).seen "EURUSD" ∧
    TicketId.synth 100 1 ∉ ([] : List TicketId) ∧
    align_price_to_grid_symbol 100 1 RoundMode.nearest = 100 ∧
    engine_safe_place_order
      (engine_mirror_sweep "EURUSD" 5 []
        (EngineState.mk [] [] fun _ => [TicketId.synth 100 1]))
      emptyEnv [] ORDER_TYPE_SELL_STOP 100 1 1 none none = false :=
  ⟨by simp, by simp,
   align_self_of_exact 100 1 100000000 (by norm_num) (by norm_num) 100
     (by norm_num) RoundMode.nearest,
   c10_shared_cooldown_blocks_cross_symbol
     (EngineState.mk [] [] fun _ => [TicketId.synth 100 1]) "EURUSD" 5 []
     100 1 emptyEnv [] ORDER_TYPE_SELL_STOP 100 1 1 none none
     (by simp) (by simp)
     (align_self_of_exact 100 1 100000000 (by norm_num) (by norm_num) 100
       (by norm_num) RoundMode.nearest)⟩

/-! Claim C2: fill-mode fallback on stop-order placement. -/

/-- C2 counterexample: against a gateway that rejects fill mode RETURN
(retcode 10030) but would fill FOK, the stop-order placement path
`place_order` returns `None` — it neither retries the next fill mode nor
returns the final attempt's result, while the retry behaviour the claim
describes (modelled from the spec) would succeed on the second mode. -/
theorem c2_place_order_no_fill_fallback_cex :
    place_order 5 [] fokOnlySend ORDER_TYPE_BUY_STOP 100 1 none none
      = none ∧
    spec_send_with_fill_fallback fokOnlySend
      { otype := ORDER_TYPE_BUY_STOP, price := 100, volume := 1, sl := none,
        tp := none, type_filling := FillMode.ret }
      = some { retcode := TRADE_RETCODE_DONE } := by
  constructor
  · simp [place_order, can_place_order, order_exists, fokOnlySend,
      TRADE_RETCODE_DONE, MAX_ORDERS_PER_SYMBOL]
  · simp [spec_send_with_fill_fallback, fokOnlySend, TRADE_RETCODE_DONE]

/-- C2 (amended): `place_order` performs at most ONE gateway send, always
with the single fixed fill mode `ORDER_FILLING_RETURN`: any result it
returns is that single attempt's reply with retcode `TRADE_RETCODE_DONE`;
every other outcome (ceiling hit, duplicate, falsy reply, non-success
retcode) is `None`, with no further fill mode tried. -/
theorem c2_place_order_single_attempt (digits : ℕ)
    (pending : List PendingOrder)
    (send : OrderRequest → Option OrderSendResult) (otype : ℕ)
    (price lot : ℚ) (slPips tpPips : Option ℚ) (r : OrderSendResult)
    (h : place_order digits pending send otype price lot slPips tpPips
      = some r) :
    r.retcode = TRADE_RETCODE_DONE ∧
    ∃ req, req.type_filling = FillMode.ret ∧ send req = some r := by
  simp only [place_order] at h
  split at h
  · exact absurd h (by simp)
  · split at h
    · exact absurd h (by simp)
    · split at h
      · exact absurd h (by simp)
      · rename_i v heq
        split at h
        · rename_i hret
          cases h
          exact ⟨hret, _, rfl, heq⟩
        · exact absurd h (by simp)

/-- C2 witness: a gateway accepting everything lets `place_order` succeed;
the returned result has retcode DONE and stems from a RETURN-mode request. -/
theorem c2_place_order_single_attempt_witness :
    place_order 5 [] alwaysDoneSend ORDER_TYPE_BUY_STOP 100 1 none none
      = some { retcode := TRADE_RETCODE_DONE } ∧
    ({ retcode := TRADE_RETCODE_DONE } : OrderSendResult).retcode
      = TRADE_RETCODE_DONE ∧
    ∃ req, req.type_filling = FillMode.ret ∧
      alwaysDoneSend req = some { retcode := TRADE_RETCODE_DONE } := by
  have heval : place_order 5 [] alwaysDoneSend ORDER_TYPE_BUY_STOP 100 1
      none none = some { retcode := TRADE_RETCODE_DONE } := by
    simp [place_order, can_place_order, order_exists, alwaysDoneSend,
      MAX_ORDERS_PER_SYMBOL, TRADE_RETCODE_DONE]
  exact ⟨heval,
    (c2_place_order_single_attempt 5 [] alwaysDoneSend ORDER_TYPE_BUY_STOP
      100 1 none none _ heval).1,
    (c2_place_order_single_attempt 5 [] alwaysDoneSend ORDER_TYPE_BUY_STOP
      100 1 none none _ heval).2⟩

/-! Claim C6: the far-order pruner with preserved anchors. -/

/-- C6: `cancel_far_orders_preserve` cancels exactly the pending orders with
a price: buy-stops strictly above `currentPrice + brickSize·(maxUp·3)` and
sell-stops strictly below `currentPrice − brickSize·(maxDown·3)`, skipping
any order whose rounded price is in the preserved set.  Concretely, with
currentPrice 100, maxUp = maxDown = 2, multiplier 3 and brickSize 1, a
pending buy-stop at 110 is canceled (110 > 106) while one at 105 is not. -/
theorem c6_cancel_far_orders_preserve_spec :
    (∀ (digits : ℕ) (orders : List PendingOrder)
        (current brick maxUp maxDown : ℚ) (preserve : List ℚ)
        (o : PendingOrder),
      o ∈ cancel_far_orders_preserve digits orders current brick maxUp maxDown
          preserve ↔
        o ∈ orders ∧ ∃ p, o.price_open = some p ∧
          roundTo digits p ∉ preserve ∧
          ((o.otype = ORDER_TYPE_BUY_STOP ∧
              current + brick * (maxUp * 3) < p) ∨
           (o.otype = ORDER_TYPE_SELL_STOP ∧
              p < current - brick * (maxDown * 3)))) ∧
    cancel_far_orders_preserve 8
        [⟨1, ORDER_TYPE_BUY_STOP, some 110⟩, ⟨2, ORDER_TYPE_BUY_STOP, some 105⟩]
        100 1 2 2 []
      = [⟨1, ORDER_TYPE_BUY_STOP, some 110⟩] := by
  constructor
  · intro digits orders current brick maxUp maxDown preserve o
    simp only [cancel_far_orders_preserve]
    rw [List.mem_filter]
    apply and_congr_right
    intro _
    cases hpo : o.price_open with
    | none => simp [hpo]
    | some p =>
      simp only [hpo, Option.some.injEq]
      split_ifs with hpre hbuy hsell
      · constructor
        · intro hfalse
          exact absurd hfalse (by simp)
        · rintro ⟨q, hq, hnpre, _⟩
          subst hq
          exact absurd hpre hnpre
      · constructor
        · intro _
          exact ⟨p, rfl, hpre, Or.inl ⟨hbuy.1, hbuy.2⟩⟩
        · intro _
          rfl
      · constructor
        · intro _
          exact ⟨p, rfl, hpre, Or.inr ⟨hsell.1, hsell.2⟩⟩
        · intro _
          rfl
      · constructor
        · intro hfalse
          exact absurd hfalse (by simp)
        · rintro ⟨q, hq, hnpre, hor⟩
          subst hq
          rcases hor with hb | hs
          · exact absurd ⟨hb.1, hb.2⟩ hbuy
          · exact absurd ⟨hs.1, hs.2⟩ hsell
  · norm_num [cancel_far_orders_preserve, List.filter, ORDER_TYPE_BUY_STOP,
      ORDER_TYPE_SELL_STOP]

/-! Claim C8: mirror placement prices. -/

/-- C8 counterexample: a buy position filled at raw price 100.2 with
brick 0.5 and one mirror level gets its sell-stop mirror at 99.5 — which is
`align(fillPrice) − brickSize`, not `fillPrice − brickSize = 99.7` as the
claim states for every newly observed buy position.  Moreover, even
`align(fillPrice) − brickSize` needs the brick expressible at the `1e-8`
precision: with brick 2.6e-8 and fill 2.6e-8 the code's candidate is
`align(3e-8 − 2.6e-8, down) = 0`, not `align(fill) − brick = 4e-9`. -/
theorem c8_mirror_price_cex :
    mirror_sell_candidates (1002 / 10) (1 / 2) 1 = [199 / 2] ∧
    ((1002 : ℚ) / 10 - 1 / 2 * 1) = 997 / 10 ∧
    ((199 : ℚ) / 2) ≠ 997 / 10 ∧
    (997 : ℚ) / 10 ∉ mirror_sell_candidates (1002 / 10) (1 / 2) 1 ∧
    mirror_sell_candidates (13 / 500000000) (13 / 500000000) 1 = [0] ∧
    align_price_to_grid_symbol (13 / 500000000) (13 / 500000000)
        RoundMode.nearest - 13 / 500000000 * 1 = 1 / 250000000 ∧
    (0 : ℚ) ≠ 1 / 250000000 := by
  have ha : align_price_to_grid_symbol (1002 / 10) (1 / 2) RoundMode.nearest
      = 100 := by
    apply align_eval _ _ _ 200 _ (by norm_num)
    · have hx : (1002 : ℚ) / 10 / (1 / 2) = 1002 / 5 := by norm_num
      simp only [alignIndex, hx]
      exact pythonRound_eval_lt (1002 / 5) 200 (by norm_num) (by norm_num)
    · have hx : ((200 : ℤ) : ℚ) * (1 / 2) = 100 := by norm_num
      rw [hx]
      exact roundTo_eq_self 8 100 10000000000 (by norm_num)
  have hdown : align_price_to_grid_symbol (199 / 2) (1 / 2) RoundMode.down
      = 199 / 2 :=
    align_self_of_exact (199 / 2) (1 / 2) 50000000 (by norm_num) (by norm_num)
      199 (by norm_num) RoundMode.down
  have h0 : mirror_sell_candidates (1002 / 10) (1 / 2) 1
      = [align_price_to_grid_symbol
          (align_price_to_grid_symbol (1002 / 10) (1 / 2) RoundMode.nearest
            - 1 / 2 * (((0 : ℕ) : ℚ) + 1))
          (1 / 2) RoundMode.down] := rfl
  have harg : (100 : ℚ) - 1 / 2 * (((0 : ℕ) : ℚ) + 1) = 199 / 2 := by
    norm_num
  have hcand : mirror_sell_candidates (1002 / 10) (1 / 2) 1 = [199 / 2] := by
    rw [h0, ha, harg, hdown]
  have hfine : align_price_to_grid_symbol (13 / 500000000) (13 / 500000000)
      RoundMode.nearest = 3 / 10 ^ 8 := by
    apply align_eval _ _ _ 1 _ (by norm_num)
    · have hx : (13 : ℚ) / 500000000 / (13 / 500000000) = 1 := by norm_num
      simp only [alignIndex, hx]
      exact pythonRound_eval_lt 1 1 (by norm_num) (by norm_num)
    · unfold roundTo
      have hx : ((1 : ℤ) : ℚ) * (13 / 500000000) * 10 ^ 8 = 13 / 5 := by
        norm_num
      rw [hx, pythonRound_eval_gt (13 / 5) 2 (by norm_num) (by norm_num)]
      norm_num
  have hfinedown : align_price_to_grid_symbol (1 / 250000000)
      (13 / 500000000) RoundMode.down = 0 := by
    apply align_eval _ _ _ 0 _ (by norm_num)
    · have hx : (1 : ℚ) / 250000000 / (13 / 500000000) = 2 / 13 := by
        norm_num
      simp only [alignIndex, hx]
      norm_num [gridEps]
    · have hx : ((0 : ℤ) : ℚ) * (13 / 500000000) = 0 := by norm_num
      rw [hx]
      exact roundTo_eq_self 8 0 0 (by norm_num)
  have h0fine : mirror_sell_candidates (13 / 500000000) (13 / 500000000) 1
      = [align_price_to_grid_symbol
          (align_price_to_grid_symbol (13 / 500000000) (13 / 500000000)
              RoundMode.nearest
            - 13 / 500000000 * (((0 : ℕ) : ℚ) + 1))
          (13 / 500000000) RoundMode.down] := rfl
  have hargfine : (3 : ℚ) / 10 ^ 8
      - 13 / 500000000 * (((0 : ℕ) : ℚ) + 1) = 1 / 250000000 := by
    norm_num
  refine ⟨hcand, by norm_num, by norm_num, ?_, ?_, ?_, by norm_num⟩
  · rw [hcand]
    norm_num
  · rw [h0fine, hfine, hargfine, hfinedown]
  · rw [hfine]
    norm_num

/-- C8 (amended): for every brick size expressible at the aligner's `1e-8`
precision, the sell-stop mirrors of a new buy position sit exactly at
`align(fillPrice) − i·brickSize` (i = 1..count) and the buy-stop mirrors of
a new sell position at `align(fillPrice) + i·brickSize`; in the spec's
scenario — buy fill at 100.0, one mirror level, brick 0.5, nothing
blocking — the handler places exactly one sell-stop, at 99.5. -/
theorem c8_mirror_levels_amended (fillRaw : ℚ) (m : ℕ) (hm : 0 < m)
    (count : ℕ) :
    mirror_sell_candidates fillRaw ((m : ℚ) / 10 ^ 8) count
      = (List.range count).map (fun i : ℕ =>
          align_price_to_grid_symbol fillRaw ((m : ℚ) / 10 ^ 8)
            RoundMode.nearest - ((m : ℚ) / 10 ^ 8) * ((i : ℚ) + 1)) ∧
    mirror_buy_candidates fillRaw ((m : ℚ) / 10 ^ 8) count
      = (List.range count).map (fun i : ℕ =>
          align_price_to_grid_symbol fillRaw ((m : ℚ) / 10 ^ 8)
            RoundMode.nearest + ((m : ℚ) / 10 ^ 8) * ((i : ℚ) + 1)) ∧
    handle_new_buy_position_mirrors emptyEnv [] [] TradeSide.both 100 (1 / 2)
      1 none none 1 = [199 / 2] := by
  obtain ⟨z, hz⟩ := align_eq_int_mul m hm fillRaw RoundMode.nearest
  refine ⟨?_, ?_, ?_⟩
  · unfold mirror_sell_candidates
    rw [hz]
    apply List.map_congr_left
    intro i _
    have harg : (z : ℚ) * ((m : ℚ) / 10 ^ 8)
        - ((m : ℚ) / 10 ^ 8) * ((i : ℚ) + 1)
        = ((z - (i : ℤ) - 1 : ℤ) : ℚ) * ((m : ℚ) / 10 ^ 8) := by
      push_cast
      ring
    rw [harg, align_int_mul_eq m hm (z - (i : ℤ) - 1) RoundMode.down]
  · unfold mirror_buy_candidates
    rw [hz]
    apply List.map_congr_left
    intro i _
    have harg : (z : ℚ) * ((m : ℚ) / 10 ^ 8)
        + ((m : ℚ) / 10 ^ 8) * ((i : ℚ) + 1)
        = ((z + (i : ℤ) + 1 : ℤ) : ℚ) * ((m : ℚ) / 10 ^ 8) := by
      push_cast
      ring
    rw [harg, align_int_mul_eq m hm (z + (i : ℤ) + 1) RoundMode.up]
  · have hfill : align_price_to_grid_symbol 100 (1 / 2) RoundMode.nearest
        = 100 :=
      align_self_of_exact 100 (1 / 2) 50000000 (by norm_num) (by norm_num)
        200 (by norm_num) RoundMode.nearest
    have hdown : align_price_to_grid_symbol (199 / 2) (1 / 2) RoundMode.down
        = 199 / 2 :=
      align_self_of_exact (199 / 2) (1 / 2) 50000000 (by norm_num)
        (by norm_num) 199 (by norm_num) RoundMode.down
    have hnear : align_price_to_grid_symbol (199 / 2) (1 / 2) RoundMode.nearest
        = 199 / 2 :=
      align_self_of_exact (199 / 2) (1 / 2) 50000000 (by norm_num)
        (by norm_num) 199 (by norm_num) RoundMode.nearest
    have h0 : mirror_sell_candidates 100 (1 / 2) 1
        = [align_price_to_grid_symbol
            (align_price_to_grid_symbol 100 (1 / 2) RoundMode.nearest
              - 1 / 2 * (((0 : ℕ) : ℚ) + 1))
            (1 / 2) RoundMode.down] := rfl
    have harg : (100 : ℚ) - 1 / 2 * (((0 : ℕ) : ℚ) + 1) = 199 / 2 := by
      norm_num
    have hcand : mirror_sell_candidates 100 (1 / 2) 1 = [199 / 2] := by
      rw [h0, hfill, harg, hdown]
    have hsafe : safe_place_order emptyEnv [] ORDER_TYPE_SELL_STOP (199 / 2) 1
        (1 / 2) none none [] = true := by
      simp only [safe_place_order, hnear]
      norm_num [level_has_existing_order_or_position, order_exists,
        place_order, can_place_order, emptyEnv, env_digits, env_point,
        MAX_ORDERS_PER_SYMBOL, ORDER_TYPE_SELL_STOP, ORDER_TYPE_BUY_STOP,
        TRADE_RETCODE_DONE]
    have hgate : mirror_attempt_places emptyEnv [] [] (1 / 2) 1 none none
        (199 / 2) = true := by
      unfold mirror_attempt_places
      rw [if_neg (by simp),
        if_neg (by simp [level_has_existing_order_or_position, emptyEnv]),
        if_neg (by simp),
        if_neg (by simp [order_exists, emptyEnv, env_digits])]
      exact hsafe
    unfold handle_new_buy_position_mirrors
    rw [if_pos (Or.inr rfl), hcand, List.filter_cons]
    simp only [hgate]
    simp

/-- C8 witness: the mirror-level formula at fill price 3, brick 0.5
(= 50000000·1e-8), two levels. -/
theorem c8_mirror_levels_witness :
    0 < 50000000 ∧
    mirror_sell_candidates 3 (((50000000 : ℕ) : ℚ) / 10 ^ 8) 2
      = (List.range 2).map (fun i : ℕ =>
          align_price_to_grid_symbol 3 (((50000000 : ℕ) : ℚ) / 10 ^ 8)
            RoundMode.nearest
            - (((50000000 : ℕ) : ℚ) / 10 ^ 8) * ((i : ℚ) + 1)) :=
  ⟨by norm_num, (c8_mirror_levels_amended 3 50000000 (by norm_num) 2).1⟩

end GridAlgo
